import Mathlib

/-!
Shallow embedding of `Numerical_Option_Pricing.ipynb`.

The finite-difference solver `FinDiffCall` and its grid are embedded over ℚ
(the Python source performs only field operations, `max`, and `math.floor`),
so every definition is executable and concrete runs are decidable.
The Monte Carlo routine `MCCall` needs `Real.exp`, so it is embedded over ℝ,
with the vector of Gaussian draws passed explicitly as a list (the source
obtains it from `np.random.normal`).
-/

/-- Time step `delta_t = T/N` (source line `delta_t = T/N`). -/
def delta_t (T : ℚ) (N : ℕ) : ℚ := T / N

/-- Price cap `S_max = 5*S0` (source line `S_max = 5*S0`). -/
def S_max (S0 : ℚ) : ℚ := 5 * S0

/-- Price step `delta_S = S_max/M` (source line `delta_S = S_max/M`). -/
def delta_S (S0 : ℚ) (M : ℕ) : ℚ := S_max S0 / M

/-- Python's built-in `max` on two numbers, written as an explicit
conditional so that it evaluates by rewriting. -/
def pymax (a b : ℚ) : ℚ := if b ≤ a then a else b

/-- `pymax` agrees with the lattice `max`. -/
theorem pymax_eq_max (a b : ℚ) : pymax a b = max a b := by
  unfold pymax
  split_ifs with h
  · exact (max_eq_left h).symm
  · exact (max_eq_right (le_of_not_le h)).symm

/-- The finite-difference grid of `FinDiffCall` after all mutation:
row 0 is written by the payoff loop (`c[0][j] = max(j*delta_S - K, 0)`)
and then partially overwritten by the boundary loop (`c[i][0] = 0`,
`c[i][M] = S_max`, which runs second and also hits row 0); rows `i ≥ 1`
keep their boundary values and get the explicit-scheme update on the
interior `j ∈ [1, M-1]`, reading only row `i-1`.  Cells with `j > M` do
not exist in the Python list; they are mapped to the allocation value 0
and are never referenced with `j > M` by any access below. -/
def FDgrid (S0 K r sigma T : ℚ) (N M : ℕ) : ℕ → ℕ → ℚ
  | 0, j =>
      if j = 0 then 0
      else if j = M then S_max S0
      else if j ≤ M then pymax ((j : ℚ) * delta_S S0 M - K) 0
      else 0
  | i + 1, j =>
      if j = 0 then 0
      else if j = M then S_max S0
      else if j ≤ M then
        0.5 * FDgrid S0 K r sigma T N M i (j - 1) * (j : ℚ) * delta_t T N
            * (sigma ^ 2 * (j : ℚ) - r)
          + FDgrid S0 K r sigma T N M i j
            * (1 - r * delta_t T N - sigma ^ 2 * (j : ℚ) ^ 2 * delta_t T N)
          + 0.5 * FDgrid S0 K r sigma T N M i (j + 1) * (j : ℚ) * delta_t T N
            * (sigma ^ 2 * (j : ℚ) + r)
      else 0

/-- The index of the returned node, `math.floor(S0/delta_S)` in the source.
Python's `math.floor` yields an `int`; for the inputs considered (`S0 > 0`)
it is non-negative, so `Int.toNat` is faithful. -/
def resultIndex (S0 : ℚ) (M : ℕ) : ℕ := (⌊S0 / delta_S S0 M⌋).toNat

/-- `FinDiffCall(S0, K, r, sigma, T, N, M)` from the source: compute the
step sizes, run the stability test
`delta_t > 1/(sigma^2*(M-1) + 0.5*r)` (returning the descriptive string on
failure), otherwise fill the grid and return `c[N][math.floor(S0/delta_S)]`.
The string return is modelled as `Except.error`. -/
def FinDiffCall (S0 K r sigma T : ℚ) (N M : ℕ) : Except String ℚ :=
  if delta_t T N > 1 / (sigma ^ 2 * ((M : ℚ) - 1) + 0.5 * r) then
    Except.error ("time resolution is not great enough")
  else
    Except.ok (FDgrid S0 K r sigma T N M N (resultIndex S0 M))

/-! ### Monte Carlo routine, over ℝ -/

/-- One simulated maturity value, the element-wise content of the source
line `maturity_values = S0*np.exp( (r - 0.5*math.pow(sigma,2))*T + sigma*Weiner )`
at a single Gaussian draw `W`. -/
noncomputable def maturity_value (S0 r sigma T W : ℝ) : ℝ :=
  S0 * Real.exp ((r - 0.5 * sigma ^ 2) * T + sigma * W)

/-- One maturity payoff, the element-wise content of
`maturity_payoff = np.maximum( maturity_values - K, 0 )`. -/
noncomputable def maturity_payoff (S0 K r sigma T W : ℝ) : ℝ :=
  max (maturity_value S0 r sigma T W - K) 0

/-- One discounted payoff, the element-wise content of
`discounted_payoff = np.exp(-r*T)*maturity_payoff`. -/
noncomputable def discounted_payoff (S0 K r sigma T W : ℝ) : ℝ :=
  Real.exp (-r * T) * maturity_payoff S0 K r sigma T W

/-- What one `MCCall` invocation produces: the returned price estimate and
the confidence-interval width that the source prints
(`print("Confidence Interval Width:", width)`), modelled as a field. -/
structure MCResult where
  price : ℝ
  ciWidth : ℝ

/-- `MCCall(S0, K, r, sigma, T, n)` from the source, with the vector
`Weiner` of `n` Gaussian draws passed explicitly instead of being sampled
by `np.random.normal(0, sqrt(T), n)`:
`average = sum(discounted_payoff)/n`,
`standard_deviation = np.std(discounted_payoff)` (population form, the
default `ddof=0` of NumPy: root of the mean squared deviation),
`width = 2*1.96*standard_deviation/np.sqrt(n)`. -/
noncomputable def MCCall (S0 K r sigma T : ℝ) (Weiner : List ℝ) : MCResult :=
  let n : ℕ := Weiner.length
  let dp : List ℝ := Weiner.map (discounted_payoff S0 K r sigma T)
  let average : ℝ := dp.sum / n
  let standard_deviation : ℝ :=
    Real.sqrt ((dp.map (fun x => (x - average) ^ 2)).sum / n)
  let width : ℝ := 2 * 1.96 * standard_deviation / Real.sqrt n
  ⟨average, width⟩

/-! ### Formulas written from the claims, for comparison with the source -/

/-- The discounted payoff exactly as the claim words it:
`e^(−rT)·max(S(T)−K, 0)` with `S(T) = S0·exp((r − sigma²/2)·T + sigma·W)`. -/
noncomputable def claimDiscountedPayoff (S0 K r sigma T W : ℝ) : ℝ :=
  Real.exp (-(r * T)) * max (S0 * Real.exp ((r - sigma ^ 2 / 2) * T + sigma * W) - K) 0

/-- Arithmetic mean of a list of reals. -/
noncomputable def arithmeticMean (xs : List ℝ) : ℝ := xs.sum / xs.length

/-- Standard deviation of a list of reals, normalised by the list length
(the convention `np.std` uses). -/
noncomputable def sampleStdDev (xs : List ℝ) : ℝ :=
  Real.sqrt ((xs.map (fun x => (x - arithmeticMean xs) ^ 2)).sum / xs.length)

/-! ### Analytical Black-Scholes formula, over ℝ -/

/-- The standard normal density, the integrand of `ss.norm.cdf`. -/
noncomputable def normPdf (t : ℝ) : ℝ := Real.exp (-t ^ 2 / 2) / Real.sqrt (2 * Real.pi)

/-- The standard normal cumulative distribution function `Φ`, the
mathematical content of the scipy call `ss.norm.cdf` used by
`BlackScholesCall`. -/
noncomputable def normCdf (x : ℝ) : ℝ := ∫ t in Set.Iic x, normPdf t

/-- `d1` from the source:
`( np.log(S0/K) + (r + sigma**2/2)*T ) / (sigma * np.sqrt(T))`. -/
noncomputable def d1 (S0 K r sigma T : ℝ) : ℝ :=
  (Real.log (S0 / K) + (r + sigma ^ 2 / 2) * T) / (sigma * Real.sqrt T)

/-- `d2` from the source: `d1(S0, K, r, sigma, T) - sigma*np.sqrt(T)`. -/
noncomputable def d2 (S0 K r sigma T : ℝ) : ℝ := d1 S0 K r sigma T - sigma * Real.sqrt T

/-- `BlackScholesCall(S0, K, r, sigma, T)` from the source:
`S0*ss.norm.cdf(d1(...)) - K*np.exp(-r*T)*ss.norm.cdf(d2(...))`. -/
noncomputable def BlackScholesCall (S0 K r sigma T : ℝ) : ℝ :=
  S0 * normCdf (d1 S0 K r sigma T) - K * Real.exp (-r * T) * normCdf (d2 S0 K r sigma T)

/-! ### Cox-Ross-Rubinstein binomial tree, over ℝ -/

/-- `u = np.exp(sigma * np.sqrt(delta_t))` of `CRRCall`, with `delta_t = T/N`. -/
noncomputable def CRRu (sigma T : ℝ) (N : ℕ) : ℝ := Real.exp (sigma * Real.sqrt (T / N))

/-- `d = np.exp(-sigma * np.sqrt(delta_t))` of `CRRCall`. -/
noncomputable def CRRd (sigma T : ℝ) (N : ℕ) : ℝ := Real.exp (-sigma * Real.sqrt (T / N))

/-- `p = (np.exp(r*delta_t) - d)/(u - d)` of `CRRCall`. -/
noncomputable def CRRp (r sigma T : ℝ) (N : ℕ) : ℝ :=
  (Real.exp (r * (T / N)) - CRRd sigma T N) / (CRRu sigma T N - CRRd sigma T N)

/-- The backward-induction grid of `CRRCall`, indexed from the terminal
row: `CRRval k j` is the Python cell `c[N-k][j]`.  Row `0` (`i = N`) holds
the terminal payoffs `max(S0*u^j*d^(N-j) - K, 0)` for `j ≤ N`; each later
row applies the discounted risk-neutral expectation
`exp(-r*delta_t)*(p*c[i+1][j+1] + (1-p)*c[i+1][j])` on `j ≤ i`.  Cells
outside the computed triangle keep the allocation value `0`, as in the
source. -/
noncomputable def CRRval (S0 K r sigma T : ℝ) (N : ℕ) : ℕ → ℕ → ℝ
  | 0, j =>
      if j ≤ N then max (S0 * CRRu sigma T N ^ j * CRRd sigma T N ^ (N - j) - K) 0 else 0
  | k + 1, j =>
      if j + (k + 1) ≤ N then
        Real.exp (-r * (T / N)) *
          (CRRp r sigma T N * CRRval S0 K r sigma T N k (j + 1)
            + (1 - CRRp r sigma T N) * CRRval S0 K r sigma T N k j)
      else 0

/-- `CRRCall(S0, K, r, sigma, T, N)` from the source: the root value
`c[0][0]` of the backward induction. -/
noncomputable def CRRCall (S0 K r sigma T : ℝ) (N : ℕ) : ℝ := CRRval S0 K r sigma T N N 0

/-! ### Helper lemmas -/

/-- With `S0 ≠ 0` and `M ≠ 0` the division `S0 / delta_S` cancels `S0`,
so the returned node index is exactly `⌊M/5⌋ = M / 5`. -/
theorem resultIndex_eq (S0 : ℚ) (M : ℕ) (hS0 : S0 ≠ 0) (hM : M ≠ 0) :
    resultIndex S0 M = M / 5 := by
  unfold resultIndex delta_S S_max
  have hMq : (M : ℚ) ≠ 0 := Nat.cast_ne_zero.mpr hM
  have h5 : S0 / (5 * S0 / (M : ℚ)) = (M : ℚ) / 5 := by
    field_simp
    ring
  rw [h5, Int.floor_toNat]
  rw [show ((5 : ℚ)) = ((5 : ℕ) : ℚ) by norm_num]
  rw [Nat.floor_div_nat, Nat.floor_natCast]

/-- The column-0 entry of every grid row is `0`. -/
theorem FDgrid_zero_col (S0 K r sigma T : ℚ) (N M : ℕ) (i : ℕ) :
    FDgrid S0 K r sigma T N M i 0 = 0 := by
  cases i <;> simp [FDgrid]

/-- The column-`M` entry of every grid row is `S_max`. -/
theorem FDgrid_max_col (S0 K r sigma T : ℚ) (N M : ℕ) (hM : M ≠ 0) (i : ℕ) :
    FDgrid S0 K r sigma T N M i M = S_max S0 := by
  cases i <;> rw [FDgrid, if_neg hM, if_pos rfl]

/-- Row 0 away from the two boundary columns holds the payoff written by
the first initialization loop. -/
theorem FDgrid_row0_interior (S0 K r sigma T : ℚ) (N M : ℕ) (j : ℕ)
    (h0 : j ≠ 0) (hM : j ≠ M) (hle : j ≤ M) :
    FDgrid S0 K r sigma T N M 0 j = pymax ((j : ℚ) * delta_S S0 M - K) 0 := by
  rw [FDgrid, if_neg h0, if_neg hM, if_pos hle]

/-- One interior update of the explicit scheme, as performed by the nested
loop of the source on rows `i ≥ 1`. -/
theorem FDgrid_step (S0 K r sigma T : ℚ) (N M : ℕ) (i j : ℕ)
    (h0 : j ≠ 0) (hM : j ≠ M) (hle : j ≤ M) :
    FDgrid S0 K r sigma T N M (i + 1) j =
      0.5 * FDgrid S0 K r sigma T N M i (j - 1) * (j : ℚ) * delta_t T N
          * (sigma ^ 2 * (j : ℚ) - r)
        + FDgrid S0 K r sigma T N M i j
          * (1 - r * delta_t T N - sigma ^ 2 * (j : ℚ) ^ 2 * delta_t T N)
        + 0.5 * FDgrid S0 K r sigma T N M i (j + 1) * (j : ℚ) * delta_t T N
          * (sigma ^ 2 * (j : ℚ) + r) := by
  rw [FDgrid, if_neg h0, if_neg hM, if_pos hle]

/-! ### Claim theorems -/

/-- C1: `FinDiffCall` returns a numeric price exactly when
`Δt ≤ 1/(sigma²·(M−1) + 0.5·r)` holds, and returns the descriptive
stability-failure string exactly when the inequality is violated (in which
case the grid recurrence is never reached). -/
theorem C1_stability_gate (S0 K r sigma T : ℚ) (N M : ℕ)
    (hN : 1 ≤ N) (hM : 2 ≤ M) (hsigma : 0 < sigma) (hr : 0 ≤ r) :
    ((∃ q, FinDiffCall S0 K r sigma T N M = Except.ok q) ↔
      delta_t T N ≤ 1 / (sigma ^ 2 * ((M : ℚ) - 1) + 0.5 * r)) ∧
    (FinDiffCall S0 K r sigma T N M =
        Except.error ("time resolution is not great enough") ↔
      ¬ delta_t T N ≤ 1 / (sigma ^ 2 * ((M : ℚ) - 1) + 0.5 * r)) := by
  unfold FinDiffCall
  by_cases h : delta_t T N > 1 / (sigma ^ 2 * ((M : ℚ) - 1) + 0.5 * r)
  · rw [if_pos h]
    exact ⟨iff_of_false (by simp) (not_le.mpr h), iff_of_true rfl (not_le.mpr h)⟩
  · rw [if_neg h]
    exact ⟨iff_of_true ⟨_, rfl⟩ (not_lt.mp h),
      iff_of_false (by simp) (not_not_intro (not_lt.mp h))⟩

/-- C1 witness: a concrete stable configuration yields a numeric result. -/
theorem C1_stability_gate_witness :
    (1 ≤ 1 ∧ 2 ≤ 2 ∧ (0 : ℚ) < 1 ∧ (0 : ℚ) ≤ 0) ∧
    (((∃ q, FinDiffCall 1 1 0 1 (1/2) 1 2 = Except.ok q) ↔
      delta_t (1/2) 1 ≤ 1 / (1 ^ 2 * ((2 : ℚ) - 1) + 0.5 * 0)) ∧
    (FinDiffCall 1 1 0 1 (1/2) 1 2 =
        Except.error ("time resolution is not great enough") ↔
      ¬ delta_t (1/2) 1 ≤ 1 / (1 ^ 2 * ((2 : ℚ) - 1) + 0.5 * 0))) :=
  ⟨by norm_num,
    C1_stability_gate 1 1 0 1 (1/2) 1 2 (by norm_num) (by norm_num)
      (by norm_num) (by norm_num)⟩

/-- C2: on the interior (`1 ≤ i ≤ N`, `1 ≤ j ≤ M−1`) the grid satisfies the
explicit-scheme recurrence of the claim, and when the stability test passes
the value returned is `c(N, j0)` with `j0 = ⌊S0/ΔS⌋`, `ΔS = 5·S0/M`. -/
theorem C2_recurrence_and_result (S0 K r sigma T : ℚ) (N M : ℕ) (hS0 : 0 < S0)
    (hstab : delta_t T N ≤ 1 / (sigma ^ 2 * ((M : ℚ) - 1) + 0.5 * r)) :
    (∀ i j, 1 ≤ i → i ≤ N → 1 ≤ j → j ≤ M - 1 →
      FDgrid S0 K r sigma T N M i j =
        0.5 * FDgrid S0 K r sigma T N M (i - 1) (j - 1) * (j : ℚ) * delta_t T N
            * (sigma ^ 2 * (j : ℚ) - r)
          + FDgrid S0 K r sigma T N M (i - 1) j
            * (1 - r * delta_t T N - sigma ^ 2 * (j : ℚ) ^ 2 * delta_t T N)
          + 0.5 * FDgrid S0 K r sigma T N M (i - 1) (j + 1) * (j : ℚ) * delta_t T N
            * (sigma ^ 2 * (j : ℚ) + r)) ∧
    FinDiffCall S0 K r sigma T N M =
      Except.ok (FDgrid S0 K r sigma T N M N ((⌊S0 / (5 * S0 / (M : ℚ))⌋).toNat)) := by
  constructor
  · intro i j hi hiN hj hjM
    match i, hi with
    | i + 1, _ =>
      have hj0 : ¬ j = 0 := by omega
      have hjM2 : ¬ j = M := by omega
      have hjle : j ≤ M := by omega
      conv_lhs => rw [FDgrid]
      rw [if_neg hj0, if_neg hjM2, if_pos hjle]
      simp
  · unfold FinDiffCall
    rw [if_neg (not_lt.mpr hstab)]
    rfl

/-- C2 witness: a concrete stable configuration, with the recurrence and the
extraction equation instantiated. -/
theorem C2_recurrence_and_result_witness :
    ((0 : ℚ) < 1 ∧ delta_t (1/4) 1 ≤ 1 / (1 ^ 2 * ((5 : ℚ) - 1) + 0.5 * 0)) ∧
    ((∀ i j, 1 ≤ i → i ≤ 1 → 1 ≤ j → j ≤ 5 - 1 →
      FDgrid 1 1 0 1 (1/4) 1 5 i j =
        0.5 * FDgrid 1 1 0 1 (1/4) 1 5 (i - 1) (j - 1) * (j : ℚ) * delta_t (1/4) 1
            * (1 ^ 2 * (j : ℚ) - 0)
          + FDgrid 1 1 0 1 (1/4) 1 5 (i - 1) j
            * (1 - 0 * delta_t (1/4) 1 - 1 ^ 2 * (j : ℚ) ^ 2 * delta_t (1/4) 1)
          + 0.5 * FDgrid 1 1 0 1 (1/4) 1 5 (i - 1) (j + 1) * (j : ℚ) * delta_t (1/4) 1
            * (1 ^ 2 * (j : ℚ) + 0)) ∧
    FinDiffCall 1 1 0 1 (1/4) 1 5 =
      Except.ok (FDgrid 1 1 0 1 (1/4) 1 5 1 ((⌊(1 : ℚ) / (5 * 1 / ((5 : ℕ) : ℚ))⌋).toNat))) :=
  ⟨by norm_num [delta_t], C2_recurrence_and_result 1 1 0 1 (1/4) 1 5 (by norm_num)
    (by norm_num [delta_t])⟩

/-- C3 counterexample: with `S0 = 1, K = 1, M = 1` the boundary loop (which
runs after the payoff loop) has overwritten the row-0 endpoint `j = M`:
the stored value is `S_max = 5`, not the payoff `max(M·ΔS − K, 0) = 4`. -/
theorem C3_terminal_row_counterexample :
    FDgrid 1 1 0 1 1 1 1 0 1 ≠ max ((1 : ℚ) * delta_S 1 1 - 1) 0 := by
  have h : (1 : ℚ) * delta_S 1 1 - 1 = 4 := by norm_num [delta_S, S_max]
  rw [FDgrid_max_col 1 1 0 1 1 1 1 (by norm_num) 0, h,
    max_eq_left (by norm_num : (0 : ℚ) ≤ 4)]
  norm_num [S_max]

/-- C3 (amended): after initialization the terminal row carries the payoff
`c(0,j) = max(j·ΔS − K, 0)` for `j ∈ [0, M−1]` (at `j = 0` this needs
`K ≥ 0`, since the boundary loop stores `0` there), while at the endpoint
`j = M` the boundary assignment has overwritten the payoff with
`c(0,M) = S_max = 5·S0`. -/
theorem C3_terminal_row (S0 K r sigma T : ℚ) (N M : ℕ) (hM : 1 ≤ M) (hK : 0 ≤ K) :
    (∀ j, j ≤ M - 1 → FDgrid S0 K r sigma T N M 0 j =
      max ((j : ℚ) * delta_S S0 M - K) 0) ∧
    FDgrid S0 K r sigma T N M 0 M = S_max S0 := by
  constructor
  · intro j hj
    by_cases hj0 : j = 0
    · subst hj0
      rw [FDgrid, if_pos rfl]
      rw [Nat.cast_zero, zero_mul, zero_sub, max_eq_right (by linarith)]
    · have hjM2 : ¬ j = M := by omega
      have hjle : j ≤ M := by omega
      rw [FDgrid, if_neg hj0, if_neg hjM2, if_pos hjle, pymax_eq_max]
  · have hM0 : ¬ M = 0 := by omega
    rw [FDgrid, if_neg hM0, if_pos rfl]

/-- C3 witness: the amended description instantiated on a concrete grid. -/
theorem C3_terminal_row_witness :
    (1 ≤ 2 ∧ (0 : ℚ) ≤ 1) ∧
    ((∀ j, j ≤ 2 - 1 → FDgrid 1 1 0 1 1 1 2 0 j =
      max ((j : ℚ) * delta_S 1 2 - 1) 0) ∧
    FDgrid 1 1 0 1 1 1 2 0 2 = S_max 1) :=
  ⟨by norm_num, C3_terminal_row 1 1 0 1 1 1 2 (by norm_num) (by norm_num)⟩

/-- C4: every row keeps `c(i,0) = 0` and `c(i,M) = S_max`: the values set by
the boundary loop are what the grid holds at those columns in all rows,
since the interior update writes only `j ∈ [1, M−1]`. -/
theorem C4_boundary_rows (S0 K r sigma T : ℚ) (N M : ℕ) (hM : 1 ≤ M) :
    ∀ i, FDgrid S0 K r sigma T N M i 0 = 0 ∧
      FDgrid S0 K r sigma T N M i M = S_max S0 := by
  have hM0 : ¬ M = 0 := by omega
  intro i
  cases i <;> exact ⟨by rw [FDgrid, if_pos rfl], by rw [FDgrid, if_neg hM0, if_pos rfl]⟩

/-- C4 witness: the boundary invariant instantiated on a concrete grid. -/
theorem C4_boundary_rows_witness :
    1 ≤ 2 ∧ ∀ i, FDgrid 1 1 0 1 1 1 2 i 0 = 0 ∧
      FDgrid 1 1 0 1 1 1 2 i 2 = S_max 1 :=
  ⟨by norm_num, C4_boundary_rows 1 1 0 1 1 1 2 (by norm_num)⟩

/-- C5 counterexample: at `S0 = K = r = sigma = T = 1`, `N = M = 1` the
routine does not reject the degenerate configuration `M = 1`: the stability
divisor degenerates to `0.5·r`, the test passes, and a numeric result is
returned. -/
theorem C5_no_rejection_counterexample :
    FinDiffCall 1 1 1 1 1 1 1 = Except.ok 0 := by
  have hidx : resultIndex 1 1 = 0 := by
    rw [resultIndex_eq 1 1 (by norm_num) (by norm_num)]
  unfold FinDiffCall
  rw [if_neg (by norm_num [delta_t]), hidx, FDgrid_zero_col]

/-- C5 (amended): `FinDiffCall` performs no invalid-configuration rejection
at all. With `M = 1` (and `r > 0`, so the degenerate stability divisor
`0.5·r` is nonzero) any input whose time step satisfies `Δt ≤ 2/r` sails
through the stability test and produces the numeric value `0` — the
boundary node at result index `0` — instead of being rejected. -/
theorem C5_no_rejection (S0 K r sigma T : ℚ) (N : ℕ) (hN : 1 ≤ N) (hr : 0 < r)
    (hstab : delta_t T N ≤ 2 / r) :
    FinDiffCall S0 K r sigma T N 1 = Except.ok 0 := by
  unfold FinDiffCall
  have hb : sigma ^ 2 * (((1 : ℕ) : ℚ) - 1) + 0.5 * r = r / 2 := by
    push_cast
    ring
  have h2 : (1 : ℚ) / (r / 2) = 2 / r := by
    rw [div_div_eq_mul_div, one_mul]
  rw [hb, h2, if_neg (not_lt.mpr hstab)]
  have hidx : resultIndex S0 1 = 0 := by
    rcases eq_or_ne S0 0 with h | h
    · simp [resultIndex, delta_S, S_max, h]
    · rw [resultIndex_eq S0 1 h (by norm_num)]
  rw [hidx, FDgrid_zero_col]

/-- C5 witness: a concrete `M = 1` input that is accepted and priced `0`. -/
theorem C5_no_rejection_witness :
    (1 ≤ 2 ∧ (0 : ℚ) < 1 ∧ delta_t 1 2 ≤ 2 / 1) ∧
    FinDiffCall 2 3 1 1 1 2 1 = Except.ok 0 :=
  ⟨by norm_num [delta_t], C5_no_rejection 2 3 1 1 1 2 (by norm_num)
    (by norm_num) (by norm_num [delta_t])⟩

/-- One interior update keyed on a non-zero row index `i`, reading row `i-1`. -/
theorem FDgrid_step_pred (S0 K r sigma T : ℚ) (N M : ℕ) (i j : ℕ)
    (hi : i ≠ 0) (h0 : j ≠ 0) (hM : j ≠ M) (hle : j ≤ M) :
    FDgrid S0 K r sigma T N M i j =
      0.5 * FDgrid S0 K r sigma T N M (i - 1) (j - 1) * (j : ℚ) * delta_t T N
          * (sigma ^ 2 * (j : ℚ) - r)
        + FDgrid S0 K r sigma T N M (i - 1) j
          * (1 - r * delta_t T N - sigma ^ 2 * (j : ℚ) ^ 2 * delta_t T N)
        + 0.5 * FDgrid S0 K r sigma T N M (i - 1) (j + 1) * (j : ℚ) * delta_t T N
          * (sigma ^ 2 * (j : ℚ) + r) := by
  match i, hi with
  | i + 1, _ => simpa using FDgrid_step S0 K r sigma T N M i j h0 hM hle

/-- Every grid entry is non-negative when the scheme weights are
non-negative: `0 ≤ r ≤ sigma²` makes the off-diagonal weights non-negative
on `j ≥ 1`, and `Δt·(r + sigma²·(M−1)²) ≤ 1` keeps the diagonal weight
`1 − r·Δt − sigma²·j²·Δt` non-negative for every `j ≤ M−1`. -/
theorem FDgrid_nonneg (S0 K r sigma T : ℚ) (N M : ℕ)
    (hS0 : 0 ≤ S0) (hr : 0 ≤ r) (hrs : r ≤ sigma ^ 2) (hT : 0 ≤ T)
    (hB : delta_t T N * (r + sigma ^ 2 * ((M : ℚ) - 1) ^ 2) ≤ 1) :
    ∀ i j, 0 ≤ FDgrid S0 K r sigma T N M i j := by
  have hdt : 0 ≤ delta_t T N := div_nonneg hT (Nat.cast_nonneg N)
  have hs2 : 0 ≤ sigma ^ 2 := sq_nonneg sigma
  intro i
  induction i with
  | zero =>
      intro j
      rw [FDgrid]
      split_ifs with h1 h2 h3
      · exact le_refl 0
      · unfold S_max; linarith
      · unfold pymax
        split_ifs with h4
        · exact h4
        · exact le_refl 0
      · exact le_refl 0
  | succ i ih =>
      intro j
      rw [FDgrid]
      split_ifs with h1 h2 h3
      · exact le_refl 0
      · unfold S_max; linarith
      · have hj1 : 1 ≤ (j : ℚ) := by
          exact_mod_cast Nat.one_le_iff_ne_zero.mpr h1
        have hj0 : (0 : ℚ) ≤ (j : ℚ) := by positivity
        have hjM : (j : ℚ) ≤ (M : ℚ) - 1 := by
          have hj' : j + 1 ≤ M := by omega
          have hc := (Nat.cast_le (α := ℚ)).mpr hj'
          push_cast at hc
          linarith
        have hsj : r ≤ sigma ^ 2 * (j : ℚ) :=
          le_trans hrs (le_mul_of_one_le_right hs2 hj1)
        have hjsq : (j : ℚ) ^ 2 ≤ ((M : ℚ) - 1) ^ 2 := pow_le_pow_left hj0 hjM 2
        have hbr : r * delta_t T N + sigma ^ 2 * (j : ℚ) ^ 2 * delta_t T N ≤ 1 := by
          nlinarith [mul_le_mul_of_nonneg_left
            (mul_le_mul_of_nonneg_left hjsq hs2) hdt]
        have t1 : 0 ≤ 0.5 * FDgrid S0 K r sigma T N M i (j - 1) * (j : ℚ)
            * delta_t T N * (sigma ^ 2 * (j : ℚ) - r) :=
          mul_nonneg (mul_nonneg (mul_nonneg
            (mul_nonneg (by norm_num) (ih (j - 1))) hj0) hdt) (by linarith)
        have t2 : 0 ≤ FDgrid S0 K r sigma T N M i j
            * (1 - r * delta_t T N - sigma ^ 2 * (j : ℚ) ^ 2 * delta_t T N) :=
          mul_nonneg (ih j) (by linarith)
        have t3 : 0 ≤ 0.5 * FDgrid S0 K r sigma T N M i (j + 1) * (j : ℚ)
            * delta_t T N * (sigma ^ 2 * (j : ℚ) + r) :=
          mul_nonneg (mul_nonneg (mul_nonneg
            (mul_nonneg (by norm_num) (ih (j + 1))) hj0) hdt)
            (add_nonneg (mul_nonneg hs2 hj0) hr)
        exact add_nonneg (add_nonneg t1 t2) t3
      · exact le_refl 0

/-- C6 counterexample: at `S0 = 1, K = 1/2, r = 0, sigma = 1, T = 7/4,
N = 7, M = 5` every contract hypothesis of the claim holds and the
stability test passes (`Δt = 1/4 = 1/(sigma²·(M−1) + 0.5·r)`), yet the
returned price is the negative rational `−77277/32768`: the stability test
admits configurations whose oscillations drive grid values negative. -/
theorem C6_nonneg_price_counterexample :
    FinDiffCall 1 (1/2) 0 1 (7/4) 7 5 = Except.ok (-77277/32768) ∧
    (-77277/32768 : ℚ) < 0 ∧
    delta_t (7/4) 7 ≤ 1 / (1 ^ 2 * ((5 : ℚ) - 1) + 0.5 * 0) := by
  refine ⟨?_, by norm_num, by norm_num [delta_t]⟩
  have hb0 := FDgrid_zero_col 1 (1/2) 0 1 (7/4) 7 5
  have hb5 := FDgrid_max_col 1 (1/2) 0 1 (7/4) 7 5 (by norm_num)
  have hSm : S_max (1 : ℚ) = 5 := by norm_num [S_max]
  rw [hSm] at hb5
  have e01 : FDgrid 1 (1/2) 0 1 (7/4) 7 5 0 1 = 1/2 := by
    rw [FDgrid_row0_interior 1 (1/2) 0 1 (7/4) 7 5 1 (by norm_num) (by norm_num) (by norm_num)]
    norm_num [pymax, delta_S, S_max]
  have e02 : FDgrid 1 (1/2) 0 1 (7/4) 7 5 0 2 = 3/2 := by
    rw [FDgrid_row0_interior 1 (1/2) 0 1 (7/4) 7 5 2 (by norm_num) (by norm_num) (by norm_num)]
    norm_num [pymax, delta_S, S_max]
  have e03 : FDgrid 1 (1/2) 0 1 (7/4) 7 5 0 3 = 5/2 := by
    rw [FDgrid_row0_interior 1 (1/2) 0 1 (7/4) 7 5 3 (by norm_num) (by norm_num) (by norm_num)]
    norm_num [pymax, delta_S, S_max]
  have e04 : FDgrid 1 (1/2) 0 1 (7/4) 7 5 0 4 = 7/2 := by
    rw [FDgrid_row0_interior 1 (1/2) 0 1 (7/4) 7 5 4 (by norm_num) (by norm_num) (by norm_num)]
    norm_num [pymax, delta_S, S_max]
  have e11 : FDgrid 1 (1/2) 0 1 (7/4) 7 5 1 1 = 9/16 := by
    rw [FDgrid_step_pred 1 (1/2) 0 1 (7/4) 7 5 1 1 (by norm_num) (by norm_num) (by norm_num) (by norm_num)]
    norm_num [e01, e02, hb0, delta_t, S_max]
  have e12 : FDgrid 1 (1/2) 0 1 (7/4) 7 5 1 2 = 3/2 := by
    rw [FDgrid_step_pred 1 (1/2) 0 1 (7/4) 7 5 1 2 (by norm_num) (by norm_num) (by norm_num) (by norm_num)]
    norm_num [e01, e02, e03, delta_t, S_max]
  have e13 : FDgrid 1 (1/2) 0 1 (7/4) 7 5 1 3 = 5/2 := by
    rw [FDgrid_step_pred 1 (1/2) 0 1 (7/4) 7 5 1 3 (by norm_num) (by norm_num) (by norm_num) (by norm_num)]
    norm_num [e02, e03, e04, delta_t, S_max]
  have e14 : FDgrid 1 (1/2) 0 1 (7/4) 7 5 1 4 = 9/2 := by
    rw [FDgrid_step_pred 1 (1/2) 0 1 (7/4) 7 5 1 4 (by norm_num) (by norm_num) (by norm_num) (by norm_num)]
    norm_num [e03, e04, hb5, delta_t, S_max]
  have e21 : FDgrid 1 (1/2) 0 1 (7/4) 7 5 2 1 = 39/64 := by
    rw [FDgrid_step_pred 1 (1/2) 0 1 (7/4) 7 5 2 1 (by norm_num) (by norm_num) (by norm_num) (by norm_num)]
    norm_num [e11, e12, hb0, delta_t, S_max]
  have e22 : FDgrid 1 (1/2) 0 1 (7/4) 7 5 2 2 = 49/32 := by
    rw [FDgrid_step_pred 1 (1/2) 0 1 (7/4) 7 5 2 2 (by norm_num) (by norm_num) (by norm_num) (by norm_num)]
    norm_num [e11, e12, e13, delta_t, S_max]
  have e23 : FDgrid 1 (1/2) 0 1 (7/4) 7 5 2 3 = 29/8 := by
    rw [FDgrid_step_pred 1 (1/2) 0 1 (7/4) 7 5 2 3 (by norm_num) (by norm_num) (by norm_num) (by norm_num)]
    norm_num [e12, e13, e14, delta_t, S_max]
  have e24 : FDgrid 1 (1/2) 0 1 (7/4) 7 5 2 4 = 3/2 := by
    rw [FDgrid_step_pred 1 (1/2) 0 1 (7/4) 7 5 2 4 (by norm_num) (by norm_num) (by norm_num) (by norm_num)]
    norm_num [e13, e14, hb5, delta_t, S_max]
  have e31 : FDgrid 1 (1/2) 0 1 (7/4) 7 5 3 1 = 83/128 := by
    rw [FDgrid_step_pred 1 (1/2) 0 1 (7/4) 7 5 3 1 (by norm_num) (by norm_num) (by norm_num) (by norm_num)]
    norm_num [e21, e22, hb0, delta_t, S_max]
  have e32 : FDgrid 1 (1/2) 0 1 (7/4) 7 5 3 2 = 271/128 := by
    rw [FDgrid_step_pred 1 (1/2) 0 1 (7/4) 7 5 3 2 (by norm_num) (by norm_num) (by norm_num) (by norm_num)]
    norm_num [e21, e22, e23, delta_t, S_max]
  have e33 : FDgrid 1 (1/2) 0 1 (7/4) 7 5 3 3 = -287/256 := by
    rw [FDgrid_step_pred 1 (1/2) 0 1 (7/4) 7 5 3 3 (by norm_num) (by norm_num) (by norm_num) (by norm_num)]
    norm_num [e22, e23, e24, delta_t, S_max]
  have e34 : FDgrid 1 (1/2) 0 1 (7/4) 7 5 3 4 = 51/4 := by
    rw [FDgrid_step_pred 1 (1/2) 0 1 (7/4) 7 5 3 4 (by norm_num) (by norm_num) (by norm_num) (by norm_num)]
    norm_num [e23, e24, hb5, delta_t, S_max]
  have e41 : FDgrid 1 (1/2) 0 1 (7/4) 7 5 4 1 = 769/1024 := by
    rw [FDgrid_step_pred 1 (1/2) 0 1 (7/4) 7 5 4 1 (by norm_num) (by norm_num) (by norm_num) (by norm_num)]
    norm_num [e31, e32, hb0, delta_t, S_max]
  have e42 : FDgrid 1 (1/2) 0 1 (7/4) 7 5 4 2 = -121/512 := by
    rw [FDgrid_step_pred 1 (1/2) 0 1 (7/4) 7 5 4 2 (by norm_num) (by norm_num) (by norm_num) (by norm_num)]
    norm_num [e31, e32, e33, delta_t, S_max]
  have e43 : FDgrid 1 (1/2) 0 1 (7/4) 7 5 4 3 = 9281/512 := by
    rw [FDgrid_step_pred 1 (1/2) 0 1 (7/4) 7 5 4 3 (by norm_num) (by norm_num) (by norm_num) (by norm_num)]
    norm_num [e32, e33, e34, delta_t, S_max]
  have e44 : FDgrid 1 (1/2) 0 1 (7/4) 7 5 4 4 = -3903/128 := by
    rw [FDgrid_step_pred 1 (1/2) 0 1 (7/4) 7 5 4 4 (by norm_num) (by norm_num) (by norm_num) (by norm_num)]
    norm_num [e33, e34, hb5, delta_t, S_max]
  have e51 : FDgrid 1 (1/2) 0 1 (7/4) 7 5 5 1 = 1093/2048 := by
    rw [FDgrid_step_pred 1 (1/2) 0 1 (7/4) 7 5 5 1 (by norm_num) (by norm_num) (by norm_num) (by norm_num)]
    norm_num [e41, e42, hb0, delta_t, S_max]
  have e52 : FDgrid 1 (1/2) 0 1 (7/4) 7 5 5 2 = 19331/2048 := by
    rw [FDgrid_step_pred 1 (1/2) 0 1 (7/4) 7 5 5 2 (by norm_num) (by norm_num) (by norm_num) (by norm_num)]
    norm_num [e41, e42, e43, delta_t, S_max]
  have e53 : FDgrid 1 (1/2) 0 1 (7/4) 7 5 5 3 = -234407/4096 := by
    rw [FDgrid_step_pred 1 (1/2) 0 1 (7/4) 7 5 5 3 (by norm_num) (by norm_num) (by norm_num) (by norm_num)]
    norm_num [e42, e43, e44, delta_t, S_max]
  have e61 : FDgrid 1 (1/2) 0 1 (7/4) 7 5 6 1 = 25889/16384 := by
    rw [FDgrid_step_pred 1 (1/2) 0 1 (7/4) 7 5 6 1 (by norm_num) (by norm_num) (by norm_num) (by norm_num)]
    norm_num [e51, e52, hb0, delta_t, S_max]
  have e62 : FDgrid 1 (1/2) 0 1 (7/4) 7 5 6 2 = -232221/8192 := by
    rw [FDgrid_step_pred 1 (1/2) 0 1 (7/4) 7 5 6 2 (by norm_num) (by norm_num) (by norm_num) (by norm_num)]
    norm_num [e51, e52, e53, delta_t, S_max]
  have e71 : FDgrid 1 (1/2) 0 1 (7/4) 7 5 7 1 = -77277/32768 := by
    rw [FDgrid_step_pred 1 (1/2) 0 1 (7/4) 7 5 7 1 (by norm_num) (by norm_num) (by norm_num) (by norm_num)]
    norm_num [e61, e62, hb0, delta_t, S_max]
  have hidx : resultIndex 1 5 = 1 := by
    rw [resultIndex_eq 1 5 (by norm_num) (by norm_num)]
  unfold FinDiffCall
  rw [if_neg (by norm_num [delta_t]), hidx, e71]

/-- C6 (amended): with the claim's contract hypotheses, a passing stability
test, and additionally non-negative scheme weights (`0 ≤ r ≤ sigma²` and
`Δt·(r + sigma²·(M−1)²) ≤ 1`), the returned price is a non-negative
rational.  Without the added weight condition the returned price can be
negative even though the stability test passes. -/
theorem C6_nonneg_price (S0 K r sigma T : ℚ) (N M : ℕ)
    (hS0 : 0 < S0) (hK : 0 < K) (hsigma : 0 < sigma) (hT : 0 < T)
    (hN : 1 ≤ N) (hM : 1 ≤ M) (hr : 0 ≤ r) (hrs : r ≤ sigma ^ 2)
    (hstab : delta_t T N ≤ 1 / (sigma ^ 2 * ((M : ℚ) - 1) + 0.5 * r))
    (hB : delta_t T N * (r + sigma ^ 2 * ((M : ℚ) - 1) ^ 2) ≤ 1) :
    ∃ q, FinDiffCall S0 K r sigma T N M = Except.ok q ∧ 0 ≤ q := by
  refine ⟨FDgrid S0 K r sigma T N M N (resultIndex S0 M), ?_, ?_⟩
  · unfold FinDiffCall
    rw [if_neg (not_lt.mpr hstab)]
  · exact FDgrid_nonneg S0 K r sigma T N M hS0.le hr hrs hT.le hB N (resultIndex S0 M)

/-- C6 witness: a concrete configuration with non-negative weights whose
returned price is non-negative. -/
theorem C6_nonneg_price_witness :
    ((0 : ℚ) < 1 ∧ (0 : ℚ) < 1 ∧ (0 : ℚ) < 1 ∧ (0 : ℚ) < 1/16 ∧
      1 ≤ 1 ∧ 1 ≤ 5 ∧ (0 : ℚ) ≤ 0 ∧ (0 : ℚ) ≤ 1 ^ 2 ∧
      delta_t (1/16) 1 ≤ 1 / (1 ^ 2 * (((5 : ℕ) : ℚ) - 1) + 0.5 * 0) ∧
      delta_t (1/16) 1 * (0 + 1 ^ 2 * (((5 : ℕ) : ℚ) - 1) ^ 2) ≤ 1) ∧
    (∃ q, FinDiffCall 1 1 0 1 (1/16) 1 5 = Except.ok q ∧ 0 ≤ q) :=
  ⟨by norm_num [delta_t],
    C6_nonneg_price 1 1 0 1 (1/16) 1 5 (by norm_num) (by norm_num) (by norm_num)
      (by norm_num) (by norm_num) (by norm_num) (by norm_num) (by norm_num)
      (by norm_num [delta_t]) (by norm_num [delta_t])⟩

/-- C7: bounds of every grid access of a run that reaches the grid phase:
the result is read in row `N` of the `N+1` allocated rows at column
`⌊S0/ΔS⌋ ≤ M`, and for the recurrence's interior position `(i, j)` the
neighbour reads `(i−1, j−1)`, `(i−1, j)`, `(i−1, j+1)` and the write at
`(i, j)` stay inside `[0, N] × [0, M]`. -/
theorem C7_access_bounds (S0 K r sigma T : ℚ) (N M : ℕ)
    (hS0 : 0 < S0) (hM : 1 ≤ M) :
    resultIndex S0 M ≤ M ∧
    (∀ i j, 1 ≤ i → i ≤ N → 1 ≤ j → j ≤ M - 1 →
      i - 1 ≤ N ∧ j - 1 ≤ M ∧ j + 1 ≤ M ∧ i ≤ N ∧ j ≤ M) := by
  constructor
  · rw [resultIndex_eq S0 M hS0.ne' (by omega)]
    exact Nat.div_le_self M 5
  · intro i j h1 h2 h3 h4
    omega

/-- C7 witness: the bounds instantiated at a concrete configuration. -/
theorem C7_access_bounds_witness :
    ((0 : ℚ) < 1 ∧ 1 ≤ 5) ∧
    (resultIndex 1 5 ≤ 5 ∧
    (∀ i j, 1 ≤ i → i ≤ 3 → 1 ≤ j → j ≤ 5 - 1 →
      i - 1 ≤ 3 ∧ j - 1 ≤ 5 ∧ j + 1 ≤ 5 ∧ i ≤ 3 ∧ j ≤ 5)) :=
  ⟨by norm_num, C7_access_bounds 1 1 0 1 1 3 5 (by norm_num) (by norm_num)⟩

/-- C8: in exact arithmetic the returned node index `⌊S0/ΔS⌋` equals
`⌊M/5⌋ = M / 5` (natural division): `S0` cancels, so the index depends
only on `M` and on none of `S0, K, r, sigma, T, N`; and the node read sits
at or below the exact grid position `M/5`. -/
theorem C8_result_index (S0 : ℚ) (M : ℕ) (hS0 : 0 < S0) (hM : 1 ≤ M) :
    resultIndex S0 M = M / 5 ∧ ((M / 5 : ℕ) : ℚ) ≤ (M : ℚ) / 5 :=
  ⟨resultIndex_eq S0 M hS0.ne' (by omega), Nat.cast_div_le⟩

/-- C8 witness: with `S0 = 7/3` and `M = 12` the index is `12 / 5 = 2`. -/
theorem C8_result_index_witness :
    ((0 : ℚ) < 7/3 ∧ 1 ≤ 12) ∧
    (resultIndex (7/3) 12 = 12 / 5 ∧ ((12 / 5 : ℕ) : ℚ) ≤ (12 : ℚ) / 5) :=
  ⟨by norm_num, C8_result_index (7/3) 12 (by norm_num) (by norm_num)⟩

/-- C10: `MCCall` returns the arithmetic mean of the discounted payoffs
`e^(−rT)·max(S(T)−K, 0)` of its draw vector, and the reported 95%
confidence-interval width — the diagnostic printed next to the returned
estimate — equals `2·1.96·σ̂/√n`, where `σ̂` is the standard deviation of
those discounted payoffs (normalised by `n`, which is what `np.std`
computes). -/
theorem C10_mc_mean_and_width (S0 K r sigma T : ℝ) (Weiner : List ℝ)
    (hn : 1 ≤ Weiner.length) :
    (MCCall S0 K r sigma T Weiner).price =
      arithmeticMean (Weiner.map (claimDiscountedPayoff S0 K r sigma T)) ∧
    (MCCall S0 K r sigma T Weiner).ciWidth =
      2 * 1.96 * sampleStdDev (Weiner.map (claimDiscountedPayoff S0 K r sigma T))
        / Real.sqrt Weiner.length := by
  have hfun : discounted_payoff S0 K r sigma T = claimDiscountedPayoff S0 K r sigma T := by
    funext W
    unfold discounted_payoff claimDiscountedPayoff maturity_payoff maturity_value
    have e1 : -r * T = -(r * T) := by ring
    have e2 : (r - 0.5 * sigma ^ 2) * T = (r - sigma ^ 2 / 2) * T := by ring
    rw [e1, e2]
  constructor
  · unfold MCCall arithmeticMean
    rw [hfun, List.length_map]
  · unfold MCCall sampleStdDev arithmeticMean
    rw [hfun, List.length_map]

/-- C10 witness: the mean/width description instantiated on one draw. -/
theorem C10_mc_mean_and_width_witness :
    1 ≤ ([0] : List ℝ).length ∧
    ((MCCall 1 0 0 1 0 [0]).price =
      arithmeticMean (([0] : List ℝ).map (claimDiscountedPayoff 1 0 0 1 0)) ∧
    (MCCall 1 0 0 1 0 [0]).ciWidth =
      2 * 1.96 * sampleStdDev (([0] : List ℝ).map (claimDiscountedPayoff 1 0 0 1 0))
        / Real.sqrt ([0] : List ℝ).length) :=
  ⟨by simp, C10_mc_mean_and_width 1 0 0 1 0 [0] (by simp)⟩

/-! ### Helper lemmas for the analytical formula and the binomial tree -/

/-- The standard normal density is everywhere positive. -/
theorem normPdf_pos (t : ℝ) : 0 < normPdf t :=
  div_pos (Real.exp_pos _) (Real.sqrt_pos.mpr (by positivity))

/-- The standard normal density is continuous. -/
theorem continuous_normPdf : Continuous normPdf := by
  unfold normPdf
  fun_prop

/-- The standard normal density is integrable on the line. -/
theorem integrable_normPdf : MeasureTheory.Integrable normPdf := by
  have h : MeasureTheory.Integrable fun t : ℝ => Real.exp (-(1/2) * t ^ 2) :=
    integrable_exp_neg_mul_sq (by norm_num)
  have h2 := h.div_const (Real.sqrt (2 * Real.pi))
  have he : (fun t : ℝ => Real.exp (-(1/2) * t ^ 2) / Real.sqrt (2 * Real.pi)) = normPdf := by
    funext t
    unfold normPdf
    ring_nf
  rwa [he] at h2

/-- Fundamental theorem of calculus for `Φ`: the normal CDF has the normal
density as derivative at every point. -/
theorem hasDerivAt_normCdf (x : ℝ) : HasDerivAt normCdf (normPdf x) x := by
  have key : ∀ y : ℝ, normCdf y = normCdf 0 + ∫ t in (0:ℝ)..y, normPdf t := by
    intro y
    have h := intervalIntegral.integral_Iic_sub_Iic (μ := MeasureTheory.volume)
      (f := normPdf) integrable_normPdf.integrableOn integrable_normPdf.integrableOn
      (a := 0) (b := y)
    unfold normCdf
    linarith
  have hF : HasDerivAt (fun u => ∫ t in (0:ℝ)..u, normPdf t) (normPdf x) x :=
    intervalIntegral.integral_hasDerivAt_right
      (integrable_normPdf.intervalIntegrable)
      (continuous_normPdf.stronglyMeasurableAtFilter _ _)
      continuous_normPdf.continuousAt
  have h2 : HasDerivAt (fun y => normCdf 0 + ∫ t in (0:ℝ)..y, normPdf t) (normPdf x) x :=
    hF.const_add _
  exact h2.congr_of_eventuallyEq (Filter.Eventually.of_forall key)

/-- The identity `S0·φ(d1) = K·e^(−rT)·φ(d2)` behind the vega formula. -/
theorem bs_pdf_identity (S0 K r sigma T : ℝ) (hS0 : 0 < S0) (hK : 0 < K)
    (hT : 0 < T) (hs : sigma ≠ 0) :
    K * Real.exp (-r * T) * normPdf (d2 S0 K r sigma T) = S0 * normPdf (d1 S0 K r sigma T) := by
  have hsT : Real.sqrt T ≠ 0 := (Real.sqrt_pos.mpr hT).ne'
  have hssT : sigma * Real.sqrt T ≠ 0 := mul_ne_zero hs hsT
  have hd1 : d1 S0 K r sigma T * (sigma * Real.sqrt T)
      = Real.log (S0 / K) + (r + sigma ^ 2 / 2) * T := by
    unfold d1
    field_simp
    ring
  have hB2 : (sigma * Real.sqrt T) ^ 2 = sigma ^ 2 * T := by
    rw [mul_pow, Real.sq_sqrt hT.le]
  have hdd : -(d2 S0 K r sigma T) ^ 2 / 2
      = -(d1 S0 K r sigma T) ^ 2 / 2 + (Real.log (S0 / K) + r * T) := by
    unfold d2
    linear_combination hd1 - hB2 / 2
  have hprod : Real.exp (-(r * T)) * Real.exp (r * T) = 1 := by
    rw [← Real.exp_add, show -(r * T) + r * T = 0 by ring, Real.exp_zero]
  have h : K * Real.exp (-r * T) * Real.exp (-d2 S0 K r sigma T ^ 2 / 2)
      = S0 * Real.exp (-d1 S0 K r sigma T ^ 2 / 2) := by
    rw [hdd, Real.exp_add, Real.exp_add, Real.exp_log (div_pos hS0 hK)]
    field_simp
    linear_combination K * S0 * Real.exp (-d1 S0 K r sigma T ^ 2 / 2) * hprod
  unfold normPdf
  calc K * Real.exp (-r * T) * (Real.exp (-d2 S0 K r sigma T ^ 2 / 2) / Real.sqrt (2 * Real.pi))
      = K * Real.exp (-r * T) * Real.exp (-d2 S0 K r sigma T ^ 2 / 2)
          / Real.sqrt (2 * Real.pi) := by
        ring
    _ = S0 * Real.exp (-d1 S0 K r sigma T ^ 2 / 2) / Real.sqrt (2 * Real.pi) := by rw [h]
    _ = S0 * (Real.exp (-d1 S0 K r sigma T ^ 2 / 2) / Real.sqrt (2 * Real.pi)) := by ring

/-- Vega of the analytical formula: as a function of `sigma > 0` the
Black-Scholes call price has derivative `S0·φ(d1)·√T`. -/
theorem bs_hasDerivAt (S0 K r T : ℝ) (hS0 : 0 < S0) (hK : 0 < K) (hT : 0 < T)
    (sigma : ℝ) (hs : 0 < sigma) :
    HasDerivAt (fun s => BlackScholesCall S0 K r s T)
      (S0 * normPdf (d1 S0 K r sigma T) * Real.sqrt T) sigma := by
  have hsT : 0 < Real.sqrt T := Real.sqrt_pos.mpr hT
  have hden0 : sigma * Real.sqrt T ≠ 0 := mul_ne_zero hs.ne' hsT.ne'
  have hnum : HasDerivAt (fun s : ℝ => Real.log (S0 / K) + (r + s ^ 2 / 2) * T)
      ((2 : ℕ) * sigma ^ (2 - 1) / 2 * T) sigma := by
    exact ((((hasDerivAt_pow 2 sigma).div_const 2).const_add r).mul_const T).const_add
      (Real.log (S0 / K))
  have hden : HasDerivAt (fun s : ℝ => s * Real.sqrt T) (Real.sqrt T) sigma := by
    simpa using (hasDerivAt_id sigma).mul_const (Real.sqrt T)
  obtain ⟨D1, hd1'⟩ : ∃ D, HasDerivAt (fun s => d1 S0 K r s T) D sigma := by
    have hdiv := hnum.div hden hden0
    have heq : (fun s : ℝ => d1 S0 K r s T)
        = fun s : ℝ => (Real.log (S0 / K) + (r + s ^ 2 / 2) * T) / (s * Real.sqrt T) := rfl
    rw [heq]
    exact ⟨_, hdiv⟩
  have hd2' : HasDerivAt (fun s => d2 S0 K r s T) (D1 - Real.sqrt T) sigma := by
    unfold d2
    exact hd1'.sub hden
  have hF1 : HasDerivAt (fun s => normCdf (d1 S0 K r s T))
      (normPdf (d1 S0 K r sigma T) * D1) sigma :=
    (hasDerivAt_normCdf (d1 S0 K r sigma T)).comp sigma hd1'
  have hF2 : HasDerivAt (fun s => normCdf (d2 S0 K r s T))
      (normPdf (d2 S0 K r sigma T) * (D1 - Real.sqrt T)) sigma :=
    (hasDerivAt_normCdf (d2 S0 K r sigma T)).comp sigma hd2'
  have hC : HasDerivAt (fun s => BlackScholesCall S0 K r s T)
      (S0 * (normPdf (d1 S0 K r sigma T) * D1)
        - K * Real.exp (-r * T) * (normPdf (d2 S0 K r sigma T) * (D1 - Real.sqrt T))) sigma := by
    unfold BlackScholesCall
    exact (hF1.const_mul S0).sub (hF2.const_mul (K * Real.exp (-r * T)))
  have hval : S0 * (normPdf (d1 S0 K r sigma T) * D1)
      - K * Real.exp (-r * T) * (normPdf (d2 S0 K r sigma T) * (D1 - Real.sqrt T))
      = S0 * normPdf (d1 S0 K r sigma T) * Real.sqrt T := by
    have hid := bs_pdf_identity S0 K r sigma T hS0 hK hT hs.ne'
    linear_combination (Real.sqrt T - D1) * hid
  rwa [hval] at hC

/-- The analytical call price is strictly increasing in the volatility. -/
theorem bs_strictMonoOn (S0 K r T : ℝ) (hS0 : 0 < S0) (hK : 0 < K) (hT : 0 < T) :
    StrictMonoOn (fun s => BlackScholesCall S0 K r s T) (Set.Ioi 0) := by
  apply strictMonoOn_of_deriv_pos (convex_Ioi 0)
  · intro x hx
    exact (bs_hasDerivAt S0 K r T hS0 hK hT x hx).continuousAt.continuousWithinAt
  · intro x hx
    rw [interior_Ioi] at hx
    rw [(bs_hasDerivAt S0 K r T hS0 hK hT x hx).deriv]
    exact mul_pos (mul_pos hS0 (normPdf_pos _)) (Real.sqrt_pos.mpr hT)

/-- Terminal row of the CRR backward induction. -/
theorem CRRval_zero (S0 K r sigma T : ℝ) (N j : ℕ) (h : j ≤ N) :
    CRRval S0 K r sigma T N 0 j
      = max (S0 * CRRu sigma T N ^ j * CRRd sigma T N ^ (N - j) - K) 0 := by
  rw [CRRval, if_pos h]

/-- One discounted risk-neutral expectation step of the CRR induction,
keyed on a non-zero row counter. -/
theorem CRRval_step_pred (S0 K r sigma T : ℝ) (N k j : ℕ) (hk : k ≠ 0) (h : j + k ≤ N) :
    CRRval S0 K r sigma T N k j =
      Real.exp (-r * (T / N)) *
        (CRRp r sigma T N * CRRval S0 K r sigma T N (k - 1) (j + 1)
          + (1 - CRRp r sigma T N) * CRRval S0 K r sigma T N (k - 1) j) := by
  match k, hk with
  | k + 1, _ =>
    simp only [Nat.add_sub_cancel]
    rw [CRRval, if_pos h]

/-- The one-period CRR price written out. -/
theorem CRRCall_one (S0 K r sigma T : ℝ) :
    CRRCall S0 K r sigma T 1 =
      Real.exp (-r * (T / 1)) *
        (CRRp r sigma T 1 * max (S0 * CRRu sigma T 1 ^ 1 * CRRd sigma T 1 ^ 0 - K) 0
          + (1 - CRRp r sigma T 1) * max (S0 * CRRu sigma T 1 ^ 0 * CRRd sigma T 1 ^ 1 - K) 0) := by
  unfold CRRCall
  rw [CRRval_step_pred S0 K r sigma T 1 1 0 (by norm_num) (by norm_num)]
  norm_num [CRRval_zero]

/-- The risk-neutral one-period identity: when both branch payoffs are in
the money the CRR expectation collapses to `e − K`. -/
theorem crr_linear (u d e K : ℝ) (h : d ≠ u) :
    (e - d) / (u - d) * (u - K) + (1 - (e - d) / (u - d)) * (d - K) = e - K := by
  have h2 : u - d ≠ 0 := sub_ne_zero.mpr (Ne.symm h)
  field_simp
  ring

/-- The finite-difference price at `sigma = 1` on the stability-passing
configuration `S0 = 1, K = 1/2, r = 0, T = 7/4, N = 7, M = 5`. -/
theorem FinDiffCall_sigma_one :
    FinDiffCall 1 (1/2) 0 1 (7/4) 7 5 = Except.ok (-77277/32768) := by
  have gb0 := FDgrid_zero_col 1 (1/2) 0 1 (7/4) 7 5
  have gb5 := FDgrid_max_col 1 (1/2) 0 1 (7/4) 7 5 (by norm_num)
  have hSm : S_max (1 : ℚ) = 5 := by norm_num [S_max]
  rw [hSm] at gb5
  have g01 : FDgrid 1 (1/2) 0 1 (7/4) 7 5 0 1 = 1/2 := by
    rw [FDgrid_row0_interior 1 (1/2) 0 1 (7/4) 7 5 1 (by norm_num) (by norm_num) (by norm_num)]
    norm_num [pymax, delta_S, S_max]
  have g02 : FDgrid 1 (1/2) 0 1 (7/4) 7 5 0 2 = 3/2 := by
    rw [FDgrid_row0_interior 1 (1/2) 0 1 (7/4) 7 5 2 (by norm_num) (by norm_num) (by norm_num)]
    norm_num [pymax, delta_S, S_max]
  have g03 : FDgrid 1 (1/2) 0 1 (7/4) 7 5 0 3 = 5/2 := by
    rw [FDgrid_row0_interior 1 (1/2) 0 1 (7/4) 7 5 3 (by norm_num) (by norm_num) (by norm_num)]
    norm_num [pymax, delta_S, S_max]
  have g04 : FDgrid 1 (1/2) 0 1 (7/4) 7 5 0 4 = 7/2 := by
    rw [FDgrid_row0_interior 1 (1/2) 0 1 (7/4) 7 5 4 (by norm_num) (by norm_num) (by norm_num)]
    norm_num [pymax, delta_S, S_max]
  have g11 : FDgrid 1 (1/2) 0 1 (7/4) 7 5 1 1 = 9/16 := by
    rw [FDgrid_step_pred 1 (1/2) 0 1 (7/4) 7 5 1 1 (by norm_num) (by norm_num) (by norm_num) (by norm_num)]
    norm_num [g01, g02, gb0, delta_t, S_max]
  have g12 : FDgrid 1 (1/2) 0 1 (7/4) 7 5 1 2 = 3/2 := by
    rw [FDgrid_step_pred 1 (1/2) 0 1 (7/4) 7 5 1 2 (by norm_num) (by norm_num) (by norm_num) (by norm_num)]
    norm_num [g01, g02, g03, delta_t, S_max]
  have g13 : FDgrid 1 (1/2) 0 1 (7/4) 7 5 1 3 = 5/2 := by
    rw [FDgrid_step_pred 1 (1/2) 0 1 (7/4) 7 5 1 3 (by norm_num) (by norm_num) (by norm_num) (by norm_num)]
    norm_num [g02, g03, g04, delta_t, S_max]
  have g14 : FDgrid 1 (1/2) 0 1 (7/4) 7 5 1 4 = 9/2 := by
    rw [FDgrid_step_pred 1 (1/2) 0 1 (7/4) 7 5 1 4 (by norm_num) (by norm_num) (by norm_num) (by norm_num)]
    norm_num [g03, g04, gb5, delta_t, S_max]
  have g21 : FDgrid 1 (1/2) 0 1 (7/4) 7 5 2 1 = 39/64 := by
    rw [FDgrid_step_pred 1 (1/2) 0 1 (7/4) 7 5 2 1 (by norm_num) (by norm_num) (by norm_num) (by norm_num)]
    norm_num [g11, g12, gb0, delta_t, S_max]
  have g22 : FDgrid 1 (1/2) 0 1 (7/4) 7 5 2 2 = 49/32 := by
    rw [FDgrid_step_pred 1 (1/2) 0 1 (7/4) 7 5 2 2 (by norm_num) (by norm_num) (by norm_num) (by norm_num)]
    norm_num [g11, g12, g13, delta_t, S_max]
  have g23 : FDgrid 1 (1/2) 0 1 (7/4) 7 5 2 3 = 29/8 := by
    rw [FDgrid_step_pred 1 (1/2) 0 1 (7/4) 7 5 2 3 (by norm_num) (by norm_num) (by norm_num) (by norm_num)]
    norm_num [g12, g13, g14, delta_t, S_max]
  have g24 : FDgrid 1 (1/2) 0 1 (7/4) 7 5 2 4 = 3/2 := by
    rw [FDgrid_step_pred 1 (1/2) 0 1 (7/4) 7 5 2 4 (by norm_num) (by norm_num) (by norm_num) (by norm_num)]
    norm_num [g13, g14, gb5, delta_t, S_max]
  have g31 : FDgrid 1 (1/2) 0 1 (7/4) 7 5 3 1 = 83/128 := by
    rw [FDgrid_step_pred 1 (1/2) 0 1 (7/4) 7 5 3 1 (by norm_num) (by norm_num) (by norm_num) (by norm_num)]
    norm_num [g21, g22, gb0, delta_t, S_max]
  have g32 : FDgrid 1 (1/2) 0 1 (7/4) 7 5 3 2 = 271/128 := by
    rw [FDgrid_step_pred 1 (1/2) 0 1 (7/4) 7 5 3 2 (by norm_num) (by norm_num) (by norm_num) (by norm_num)]
    norm_num [g21, g22, g23, delta_t, S_max]
  have g33 : FDgrid 1 (1/2) 0 1 (7/4) 7 5 3 3 = -287/256 := by
    rw [FDgrid_step_pred 1 (1/2) 0 1 (7/4) 7 5 3 3 (by norm_num) (by norm_num) (by norm_num) (by norm_num)]
    norm_num [g22, g23, g24, delta_t, S_max]
  have g34 : FDgrid 1 (1/2) 0 1 (7/4) 7 5 3 4 = 51/4 := by
    rw [FDgrid_step_pred 1 (1/2) 0 1 (7/4) 7 5 3 4 (by norm_num) (by norm_num) (by norm_num) (by norm_num)]
    norm_num [g23, g24, gb5, delta_t, S_max]
  have g41 : FDgrid 1 (1/2) 0 1 (7/4) 7 5 4 1 = 769/1024 := by
    rw [FDgrid_step_pred 1 (1/2) 0 1 (7/4) 7 5 4 1 (by norm_num) (by norm_num) (by norm_num) (by norm_num)]
    norm_num [g31, g32, gb0, delta_t, S_max]
  have g42 : FDgrid 1 (1/2) 0 1 (7/4) 7 5 4 2 = -121/512 := by
    rw [FDgrid_step_pred 1 (1/2) 0 1 (7/4) 7 5 4 2 (by norm_num) (by norm_num) (by norm_num) (by norm_num)]
    norm_num [g31, g32, g33, delta_t, S_max]
  have g43 : FDgrid 1 (1/2) 0 1 (7/4) 7 5 4 3 = 9281/512 := by
    rw [FDgrid_step_pred 1 (1/2) 0 1 (7/4) 7 5 4 3 (by norm_num) (by norm_num) (by norm_num) (by norm_num)]
    norm_num [g32, g33, g34, delta_t, S_max]
  have g44 : FDgrid 1 (1/2) 0 1 (7/4) 7 5 4 4 = -3903/128 := by
    rw [FDgrid_step_pred 1 (1/2) 0 1 (7/4) 7 5 4 4 (by norm_num) (by norm_num) (by norm_num) (by norm_num)]
    norm_num [g33, g34, gb5, delta_t, S_max]
  have g51 : FDgrid 1 (1/2) 0 1 (7/4) 7 5 5 1 = 1093/2048 := by
    rw [FDgrid_step_pred 1 (1/2) 0 1 (7/4) 7 5 5 1 (by norm_num) (by norm_num) (by norm_num) (by norm_num)]
    norm_num [g41, g42, gb0, delta_t, S_max]
  have g52 : FDgrid 1 (1/2) 0 1 (7/4) 7 5 5 2 = 19331/2048 := by
    rw [FDgrid_step_pred 1 (1/2) 0 1 (7/4) 7 5 5 2 (by norm_num) (by norm_num) (by norm_num) (by norm_num)]
    norm_num [g41, g42, g43, delta_t, S_max]
  have g53 : FDgrid 1 (1/2) 0 1 (7/4) 7 5 5 3 = -234407/4096 := by
    rw [FDgrid_step_pred 1 (1/2) 0 1 (7/4) 7 5 5 3 (by norm_num) (by norm_num) (by norm_num) (by norm_num)]
    norm_num [g42, g43, g44, delta_t, S_max]
  have g61 : FDgrid 1 (1/2) 0 1 (7/4) 7 5 6 1 = 25889/16384 := by
    rw [FDgrid_step_pred 1 (1/2) 0 1 (7/4) 7 5 6 1 (by norm_num) (by norm_num) (by norm_num) (by norm_num)]
    norm_num [g51, g52, gb0, delta_t, S_max]
  have g62 : FDgrid 1 (1/2) 0 1 (7/4) 7 5 6 2 = -232221/8192 := by
    rw [FDgrid_step_pred 1 (1/2) 0 1 (7/4) 7 5 6 2 (by norm_num) (by norm_num) (by norm_num) (by norm_num)]
    norm_num [g51, g52, g53, delta_t, S_max]
  have g71 : FDgrid 1 (1/2) 0 1 (7/4) 7 5 7 1 = -77277/32768 := by
    rw [FDgrid_step_pred 1 (1/2) 0 1 (7/4) 7 5 7 1 (by norm_num) (by norm_num) (by norm_num) (by norm_num)]
    norm_num [g61, g62, gb0, delta_t, S_max]
  have hidx : resultIndex 1 5 = 1 := by
    rw [resultIndex_eq 1 5 (by norm_num) (by norm_num)]
  unfold FinDiffCall
  rw [if_neg (by norm_num [delta_t]), hidx, g71]

/-- The finite-difference price at `sigma = 1/2` on the same
configuration. -/
theorem FinDiffCall_sigma_half :
    FinDiffCall 1 (1/2) 0 (1/2) (7/4) 7 5 = Except.ok (319594941/536870912) := by
  have gb0 := FDgrid_zero_col 1 (1/2) 0 (1/2) (7/4) 7 5
  have gb5 := FDgrid_max_col 1 (1/2) 0 (1/2) (7/4) 7 5 (by norm_num)
  have hSm : S_max (1 : ℚ) = 5 := by norm_num [S_max]
  rw [hSm] at gb5
  have f01 : FDgrid 1 (1/2) 0 (1/2) (7/4) 7 5 0 1 = 1/2 := by
    rw [FDgrid_row0_interior 1 (1/2) 0 (1/2) (7/4) 7 5 1 (by norm_num) (by norm_num) (by norm_num)]
    norm_num [pymax, delta_S, S_max]
  have f02 : FDgrid 1 (1/2) 0 (1/2) (7/4) 7 5 0 2 = 3/2 := by
    rw [FDgrid_row0_interior 1 (1/2) 0 (1/2) (7/4) 7 5 2 (by norm_num) (by norm_num) (by norm_num)]
    norm_num [pymax, delta_S, S_max]
  have f03 : FDgrid 1 (1/2) 0 (1/2) (7/4) 7 5 0 3 = 5/2 := by
    rw [FDgrid_row0_interior 1 (1/2) 0 (1/2) (7/4) 7 5 3 (by norm_num) (by norm_num) (by norm_num)]
    norm_num [pymax, delta_S, S_max]
  have f04 : FDgrid 1 (1/2) 0 (1/2) (7/4) 7 5 0 4 = 7/2 := by
    rw [FDgrid_row0_interior 1 (1/2) 0 (1/2) (7/4) 7 5 4 (by norm_num) (by norm_num) (by norm_num)]
    norm_num [pymax, delta_S, S_max]
  have f11 : FDgrid 1 (1/2) 0 (1/2) (7/4) 7 5 1 1 = 33/64 := by
    rw [FDgrid_step_pred 1 (1/2) 0 (1/2) (7/4) 7 5 1 1 (by norm_num) (by norm_num) (by norm_num) (by norm_num)]
    norm_num [f01, f02, gb0, delta_t, S_max]
  have f12 : FDgrid 1 (1/2) 0 (1/2) (7/4) 7 5 1 2 = 3/2 := by
    rw [FDgrid_step_pred 1 (1/2) 0 (1/2) (7/4) 7 5 1 2 (by norm_num) (by norm_num) (by norm_num) (by norm_num)]
    norm_num [f01, f02, f03, delta_t, S_max]
  have f13 : FDgrid 1 (1/2) 0 (1/2) (7/4) 7 5 1 3 = 5/2 := by
    rw [FDgrid_step_pred 1 (1/2) 0 (1/2) (7/4) 7 5 1 3 (by norm_num) (by norm_num) (by norm_num) (by norm_num)]
    norm_num [f02, f03, f04, delta_t, S_max]
  have f14 : FDgrid 1 (1/2) 0 (1/2) (7/4) 7 5 1 4 = 15/4 := by
    rw [FDgrid_step_pred 1 (1/2) 0 (1/2) (7/4) 7 5 1 4 (by norm_num) (by norm_num) (by norm_num) (by norm_num)]
    norm_num [f03, f04, gb5, delta_t, S_max]
  have f21 : FDgrid 1 (1/2) 0 (1/2) (7/4) 7 5 2 1 = 543/1024 := by
    rw [FDgrid_step_pred 1 (1/2) 0 (1/2) (7/4) 7 5 2 1 (by norm_num) (by norm_num) (by norm_num) (by norm_num)]
    norm_num [f11, f12, gb0, delta_t, S_max]
  have f22 : FDgrid 1 (1/2) 0 (1/2) (7/4) 7 5 2 2 = 769/512 := by
    rw [FDgrid_step_pred 1 (1/2) 0 (1/2) (7/4) 7 5 2 2 (by norm_num) (by norm_num) (by norm_num) (by norm_num)]
    norm_num [f11, f12, f13, delta_t, S_max]
  have f23 : FDgrid 1 (1/2) 0 (1/2) (7/4) 7 5 2 3 = 329/128 := by
    rw [FDgrid_step_pred 1 (1/2) 0 (1/2) (7/4) 7 5 2 3 (by norm_num) (by norm_num) (by norm_num) (by norm_num)]
    norm_num [f12, f13, f14, delta_t, S_max]
  have f24 : FDgrid 1 (1/2) 0 (1/2) (7/4) 7 5 2 4 = 15/4 := by
    rw [FDgrid_step_pred 1 (1/2) 0 (1/2) (7/4) 7 5 2 4 (by norm_num) (by norm_num) (by norm_num) (by norm_num)]
    norm_num [f13, f14, gb5, delta_t, S_max]
  have f31 : FDgrid 1 (1/2) 0 (1/2) (7/4) 7 5 3 1 = 4457/8192 := by
    rw [FDgrid_step_pred 1 (1/2) 0 (1/2) (7/4) 7 5 3 1 (by norm_num) (by norm_num) (by norm_num) (by norm_num)]
    norm_num [f21, f22, gb0, delta_t, S_max]
  have f32 : FDgrid 1 (1/2) 0 (1/2) (7/4) 7 5 3 2 = 12403/8192 := by
    rw [FDgrid_step_pred 1 (1/2) 0 (1/2) (7/4) 7 5 3 2 (by norm_num) (by norm_num) (by norm_num) (by norm_num)]
    norm_num [f21, f22, f23, delta_t, S_max]
  have f33 : FDgrid 1 (1/2) 0 (1/2) (7/4) 7 5 3 3 = 42625/16384 := by
    rw [FDgrid_step_pred 1 (1/2) 0 (1/2) (7/4) 7 5 3 3 (by norm_num) (by norm_num) (by norm_num) (by norm_num)]
    norm_num [f22, f23, f24, delta_t, S_max]
  have f34 : FDgrid 1 (1/2) 0 (1/2) (7/4) 7 5 3 4 = 969/256 := by
    rw [FDgrid_step_pred 1 (1/2) 0 (1/2) (7/4) 7 5 3 4 (by norm_num) (by norm_num) (by norm_num) (by norm_num)]
    norm_num [f23, f24, gb5, delta_t, S_max]
  have f41 : FDgrid 1 (1/2) 0 (1/2) (7/4) 7 5 4 1 = 146113/262144 := by
    rw [FDgrid_step_pred 1 (1/2) 0 (1/2) (7/4) 7 5 4 1 (by norm_num) (by norm_num) (by norm_num) (by norm_num)]
    norm_num [f31, f32, gb0, delta_t, S_max]
  have f42 : FDgrid 1 (1/2) 0 (1/2) (7/4) 7 5 4 2 = 200375/131072 := by
    rw [FDgrid_step_pred 1 (1/2) 0 (1/2) (7/4) 7 5 4 2 (by norm_num) (by norm_num) (by norm_num) (by norm_num)]
    norm_num [f31, f32, f33, delta_t, S_max]
  have f43 : FDgrid 1 (1/2) 0 (1/2) (7/4) 7 5 4 3 = 344537/131072 := by
    rw [FDgrid_step_pred 1 (1/2) 0 (1/2) (7/4) 7 5 4 3 (by norm_num) (by norm_num) (by norm_num) (by norm_num)]
    norm_num [f32, f33, f34, delta_t, S_max]
  have f44 : FDgrid 1 (1/2) 0 (1/2) (7/4) 7 5 4 4 = 124545/32768 := by
    rw [FDgrid_step_pred 1 (1/2) 0 (1/2) (7/4) 7 5 4 4 (by norm_num) (by norm_num) (by norm_num) (by norm_num)]
    norm_num [f33, f34, gb5, delta_t, S_max]
  have f51 : FDgrid 1 (1/2) 0 (1/2) (7/4) 7 5 5 1 = 1196035/2097152 := by
    rw [FDgrid_step_pred 1 (1/2) 0 (1/2) (7/4) 7 5 5 1 (by norm_num) (by norm_num) (by norm_num) (by norm_num)]
    norm_num [f41, f42, gb0, delta_t, S_max]
  have f52 : FDgrid 1 (1/2) 0 (1/2) (7/4) 7 5 5 2 = 3239687/2097152 := by
    rw [FDgrid_step_pred 1 (1/2) 0 (1/2) (7/4) 7 5 5 2 (by norm_num) (by norm_num) (by norm_num) (by norm_num)]
    norm_num [f41, f42, f43, delta_t, S_max]
  have f53 : FDgrid 1 (1/2) 0 (1/2) (7/4) 7 5 5 3 = 11110513/4194304 := by
    rw [FDgrid_step_pred 1 (1/2) 0 (1/2) (7/4) 7 5 5 3 (by norm_num) (by norm_num) (by norm_num) (by norm_num)]
    norm_num [f42, f43, f44, delta_t, S_max]
  have f61 : FDgrid 1 (1/2) 0 (1/2) (7/4) 7 5 6 1 = 39120737/67108864 := by
    rw [FDgrid_step_pred 1 (1/2) 0 (1/2) (7/4) 7 5 6 1 (by norm_num) (by norm_num) (by norm_num) (by norm_num)]
    norm_num [f51, f52, gb0, delta_t, S_max]
  have f62 : FDgrid 1 (1/2) 0 (1/2) (7/4) 7 5 6 2 = 52378827/33554432 := by
    rw [FDgrid_step_pred 1 (1/2) 0 (1/2) (7/4) 7 5 6 2 (by norm_num) (by norm_num) (by norm_num) (by norm_num)]
    norm_num [f51, f52, f53, delta_t, S_max]
  have f71 : FDgrid 1 (1/2) 0 (1/2) (7/4) 7 5 7 1 = 319594941/536870912 := by
    rw [FDgrid_step_pred 1 (1/2) 0 (1/2) (7/4) 7 5 7 1 (by norm_num) (by norm_num) (by norm_num) (by norm_num)]
    norm_num [f61, f62, gb0, delta_t, S_max]
  have hidx : resultIndex 1 5 = 1 := by
    rw [resultIndex_eq 1 5 (by norm_num) (by norm_num)]
  unfold FinDiffCall
  rw [if_neg (by norm_num [delta_t]), hidx, f71]

/-- C9 counterexample: the uniform monotonicity claim fails at three of the
four methods, each at a concrete input.  Binomial tree: at
`S0 = 1, K = 7/10, r = 1, T = 1, N = 1` (a regime where `p > 1`), raising
`sigma` from `1/4` to `1/2` pushes the down branch out of the money and the
price strictly drops.  Finite differences: on `S0 = 1, K = 1/2, r = 0,
T = 7/4, N = 7, M = 5` both `sigma = 1/2` and `sigma = 1` pass the
stability test, yet the price drops from `319594941/536870912` to the
negative `−77277/32768`.  Monte Carlo with the shared draw `W = 0` and
`S0 = 4, K = 1, r = 0, T = 1`: raising `sigma` from `1` to `2` drops the
sole discounted payoff from `4·e^{−1/2} − 1 > 0` to `0`. -/
theorem C9_mono_counterexample :
    CRRCall 1 (7/10) 1 (1/2) 1 1 < CRRCall 1 (7/10) 1 (1/4) 1 1 ∧
    (delta_t (7/4) 7 ≤ 1 / ((1/2 : ℚ) ^ 2 * ((5 : ℚ) - 1) + 0.5 * 0) ∧
      delta_t (7/4) 7 ≤ 1 / ((1 : ℚ) ^ 2 * ((5 : ℚ) - 1) + 0.5 * 0) ∧
      FinDiffCall 1 (1/2) 0 (1/2) (7/4) 7 5 = Except.ok (319594941/536870912) ∧
      FinDiffCall 1 (1/2) 0 1 (7/4) 7 5 = Except.ok (-77277/32768) ∧
      (-77277/32768 : ℚ) < 319594941/536870912) ∧
    (MCCall 4 1 0 2 1 [0]).price < (MCCall 4 1 0 1 1 [0]).price := by
  refine ⟨?_, ⟨by norm_num [delta_t], by norm_num [delta_t],
    FinDiffCall_sigma_half, FinDiffCall_sigma_one, by norm_num⟩, ?_⟩
  · -- binomial tree: sigma 1/4 -> 1/2 strictly decreases the price
    have hexp1 := Real.exp_one_gt_d9
    have hexp1' := Real.exp_one_lt_d9
    have ht4 : Real.exp (1/4 : ℝ) ^ 4 = Real.exp 1 := by
      rw [← Real.exp_nat_mul]; norm_num
    have hs2 : Real.exp (1/2 : ℝ) ^ 2 = Real.exp 1 := by
      rw [← Real.exp_nat_mul]; norm_num
    have ht107 : Real.exp (1/4 : ℝ) < 10/7 := by
      by_contra hc
      push_neg at hc
      have h4 : (10/7 : ℝ) ^ 4 ≤ Real.exp (1/4 : ℝ) ^ 4 :=
        pow_le_pow_left₀ (by norm_num) hc 4
      rw [ht4] at h4
      nlinarith
    have hs107 : (10/7 : ℝ) < Real.exp (1/2 : ℝ) := by
      by_contra hc
      push_neg at hc
      have h2 : Real.exp (1/2 : ℝ) ^ 2 ≤ (10/7 : ℝ) ^ 2 :=
        pow_le_pow_left₀ (Real.exp_pos _).le hc 2
      rw [hs2] at h2
      nlinarith
    have hdv1 : (7/10 : ℝ) < Real.exp (-(1/4 : ℝ)) := by
      rw [Real.exp_neg]
      have h := mul_lt_mul_of_pos_right ht107 (inv_pos.mpr (Real.exp_pos (1/4 : ℝ)))
      rw [mul_inv_cancel₀ (Real.exp_pos _).ne'] at h
      linarith
    have hdv2 : Real.exp (-(1/2 : ℝ)) < 7/10 := by
      rw [Real.exp_neg]
      have h := mul_lt_mul_of_pos_right hs107 (inv_pos.mpr (Real.exp_pos (1/2 : ℝ)))
      rw [mul_inv_cancel₀ (Real.exp_pos _).ne'] at h
      linarith
    have hu1 : (7/10 : ℝ) < Real.exp (1/4 : ℝ) := by
      nlinarith [Real.add_one_le_exp (1/4 : ℝ)]
    have hud1 : Real.exp (-(1/4 : ℝ)) < Real.exp (1/4 : ℝ) :=
      Real.exp_lt_exp.mpr (by norm_num)
    have hud2 : Real.exp (-(1/2 : ℝ)) < Real.exp (1/2 : ℝ) :=
      Real.exp_lt_exp.mpr (by norm_num)
    have hes : Real.exp (1/2 : ℝ) < Real.exp 1 := Real.exp_lt_exp.mpr (by norm_num)
    have hu1e : CRRu (1/4) 1 1 = Real.exp (1/4 : ℝ) := by
      unfold CRRu
      congr 1
      norm_num
    have hd1e : CRRd (1/4) 1 1 = Real.exp (-(1/4 : ℝ)) := by
      unfold CRRd
      congr 1
      norm_num
    have hu2e : CRRu (1/2) 1 1 = Real.exp (1/2 : ℝ) := by
      unfold CRRu
      congr 1
      norm_num
    have hd2e : CRRd (1/2) 1 1 = Real.exp (-(1/2 : ℝ)) := by
      unfold CRRd
      congr 1
      norm_num
    have hp1e : CRRp 1 (1/4) 1 1
        = (Real.exp 1 - Real.exp (-(1/4 : ℝ)))
          / (Real.exp (1/4 : ℝ) - Real.exp (-(1/4 : ℝ))) := by
      unfold CRRp
      rw [hu1e, hd1e]
      norm_num
    have hp2e : CRRp 1 (1/2) 1 1
        = (Real.exp 1 - Real.exp (-(1/2 : ℝ)))
          / (Real.exp (1/2 : ℝ) - Real.exp (-(1/2 : ℝ))) := by
      unfold CRRp
      rw [hu2e, hd2e]
      norm_num
    have hP1 : CRRCall 1 (7/10) 1 (1/4) 1 1 = Real.exp (-1 : ℝ) * (Real.exp 1 - 7/10) := by
      rw [CRRCall_one, hu1e, hd1e, hp1e]
      norm_num
      rw [max_eq_left (by linarith), max_eq_left (by linarith)]
      rw [crr_linear _ _ _ _ (ne_of_lt hud1)]
    have hP2 : CRRCall 1 (7/10) 1 (1/2) 1 1 =
        Real.exp (-1 : ℝ) * ((Real.exp 1 - Real.exp (-(1/2 : ℝ)))
          / (Real.exp (1/2 : ℝ) - Real.exp (-(1/2 : ℝ))) * (Real.exp (1/2 : ℝ) - 7/10)) := by
      rw [CRRCall_one, hu2e, hd2e, hp2e]
      norm_num
      rw [max_eq_left (by linarith), max_eq_right (by linarith)]
      ring
    rw [hP1, hP2]
    have hkey : (Real.exp 1 - Real.exp (-(1/2 : ℝ)))
        / (Real.exp (1/2 : ℝ) - Real.exp (-(1/2 : ℝ))) * (Real.exp (1/2 : ℝ) - 7/10)
        < Real.exp 1 - 7/10 := by
      rw [div_mul_eq_mul_div, div_lt_iff₀ (by linarith)]
      nlinarith [mul_pos (sub_pos.mpr hes) (sub_pos.mpr hdv2)]
    exact mul_lt_mul_of_pos_left hkey (Real.exp_pos _)
  · -- Monte Carlo with the shared draw [0]: sigma 1 -> 2 strictly decreases
    have hexp2 : (4 : ℝ) * Real.exp (-2) ≤ 1 := by
      have h4 : (4 : ℝ) ≤ Real.exp 2 := by
        have h := Real.exp_one_gt_d9
        have he : Real.exp 2 = Real.exp 1 * Real.exp 1 := by
          rw [← Real.exp_add]; norm_num
        nlinarith
      rw [Real.exp_neg, ← div_eq_mul_inv, div_le_one (Real.exp_pos 2)]
      linarith
    have hexp1 : (0 : ℝ) < 4 * Real.exp (-(1/2)) - 1 := by
      have hlt : Real.exp ((1:ℝ)/2) < 4 := by
        have h1 : Real.exp ((1:ℝ)/2) ≤ Real.exp 1 := Real.exp_le_exp.mpr (by norm_num)
        have h2 := Real.exp_one_lt_d9
        linarith
      have hpos : (0:ℝ) < Real.exp ((1:ℝ)/2) := Real.exp_pos _
      have h14 : (1 : ℝ) < 4 * Real.exp (-(1/2)) := by
        rw [Real.exp_neg, ← div_eq_mul_inv, lt_div_iff₀ hpos]
        linarith
      linarith
    have hA : (MCCall 4 1 0 1 1 [0]).price = 4 * Real.exp (-(1/2)) - 1 := by
      simp [MCCall, discounted_payoff, maturity_payoff, maturity_value]
      rw [max_eq_left (by linarith)]
      norm_num
    have hB : (MCCall 4 1 0 2 1 [0]).price = 0 := by
      simp [MCCall, discounted_payoff, maturity_payoff, maturity_value]
      norm_num
      linarith
    rw [hA, hB]
    linarith

/-- C9 (amended): increasing the volatility does not decrease the
analytically computed call price: for `S0, K, T > 0`, any `r`, and
`0 < sigma1 ≤ sigma2`, `BlackScholesCall(S0,K,r,sigma1,T) ≤
BlackScholesCall(S0,K,r,sigma2,T)` (the formula is strictly increasing in
`sigma`, with vega `S0·φ(d1)·√T > 0`).  The corresponding monotonicity
fails for the binomial tree, the finite-difference solver (even on inputs
where both volatilities pass the stability check), and the Monte Carlo
estimator with the same random draws. -/
theorem C9_bs_mono (S0 K r T sigma1 sigma2 : ℝ) (hS0 : 0 < S0) (hK : 0 < K)
    (hT : 0 < T) (h1 : 0 < sigma1) (h12 : sigma1 ≤ sigma2) :
    BlackScholesCall S0 K r sigma1 T ≤ BlackScholesCall S0 K r sigma2 T := by
  rcases eq_or_lt_of_le h12 with rfl | hlt
  · exact le_refl _
  · exact (bs_strictMonoOn S0 K r T hS0 hK hT (Set.mem_Ioi.mpr h1)
      (Set.mem_Ioi.mpr (lt_of_le_of_lt h1.le hlt)) hlt).le

/-- C9 witness: the analytical monotonicity instantiated at a concrete
volatility pair. -/
theorem C9_bs_mono_witness :
    ((0 : ℝ) < 200 ∧ (0 : ℝ) < 205 ∧ (0 : ℝ) < 1/2 ∧ (0 : ℝ) < 14/100 ∧
      (14/100 : ℝ) ≤ 28/100) ∧
    BlackScholesCall 200 205 (2/100) (14/100) (1/2)
      ≤ BlackScholesCall 200 205 (2/100) (28/100) (1/2) :=
  ⟨by norm_num,
    C9_bs_mono 200 205 (2/100) (1/2) (14/100) (28/100) (by norm_num) (by norm_num)
      (by norm_num) (by norm_num) (by norm_num)⟩
